import Mathlib

/-!
Verification of the command-protocol layer of `ue-mini-boom-manager`
(`src/ue_mini_boom_controller/protocol.py` and `spp.py`).

Bytes are modelled as `Nat` (the relevant ranges are stated as hypotheses
where they matter).  The socket / subprocess environment is an explicit
`SppWorld` record describing how the outside world reacts (whether the
native Bluetooth API exists, what `sdptool` prints, whether `connect`
succeeds, what each `send` / `recv` call does), and each transport
operation returns its result together with a trace of I/O events, so that
connection, pacing, transmission and cleanup behaviour are all visible in
the model.
-/

namespace UEMiniBoom

/-- Known SPP command ids (`protocol.py`, class `UECommand`). -/
def UECommand.VOLUME_ADJUST : Nat := 0xBB

def UECommand.BATTERY_ANNOUNCE : Nat := 0x6B

def UECommand.EQ_PRESET : Nat := 0x64

def UECommand.SET_NAME : Nat := 0x72

def UECommand.DOUBLE_UP_MODE : Nat := 0x67

/-- Packet builder `build_spp_command` from `protocol.py`: packet is
`[total_length] [0x01] [command_id] [param1] [param2] ...` where
`total_length = 1 + 1 + len(params)`. -/
def build_spp_command (command_id : Nat) (params : List Nat) : List Nat :=
  let payload := 0x01 :: command_id :: params
  let length := payload.length
  length :: payload

/-- The response-scanning loop shared by `query_spp_value` (spp.py lines
169-172) and `query_spp_values` (lines 209-212): walk `resp` left to
right over indices `i < len(resp) - 1`; at the first `i` with
`resp[i] == command_id` return `resp[i+1]`; otherwise no value. -/
def extract_value : List Nat → Nat → Option Nat
  | a :: b :: rest, command_id =>
      if a = command_id then some b else extract_value (b :: rest) command_id
  | _, _ => none

/-- Outcome of one `sock.recv` call: data, or a `TimeoutError`/`OSError`. -/
inductive RecvOutcome
  | ok (data : List Nat)
  | timeout
deriving DecidableEq, Repr

/-- Outcome of one `sock.send` call: success, or an `OSError`. -/
inductive SendOutcome
  | ok
  | err
deriving DecidableEq, Repr

/-- Outcome of running `sdptool search`: an error
(`FileNotFoundError` / `subprocess.TimeoutExpired`), or captured stdout
lines. -/
inductive ToolOutcome
  | err
  | out (lines : List String)

/-- One observable I/O action of a transport operation.  `sleep` is in
milliseconds, `settimeout` in seconds, matching the constants in the
source. -/
inductive Ev
  | connect (channel : Int)
  | send (packet : List Nat)
  | sleep (ms : Nat)
  | settimeout (seconds : Nat)
  | recv (r : RecvOutcome)
  | close
deriving DecidableEq, Repr

/-- The environment a transport operation runs in: platform capability,
tool output, and the reaction of the device to each socket call.
`sendOut k` / `recvOut k` give the outcome of the k-th `send` / `recv`
issued by the operation. -/
structure SppWorld where
  hasBluetooth : Bool
  sdptool : ToolOutcome
  pybluezAvailable : Bool
  findService : Option Int
  connectOk : Bool
  sendOut : Nat → SendOutcome
  recvOut : Nat → RecvOutcome

/-- Default channel `_DEFAULT_RFCOMM_CHANNEL` from `spp.py`. -/
def DEFAULT_RFCOMM_CHANNEL : Int := 5

/-- Python `str.strip()`: drop leading and trailing whitespace. -/
def pyStrip (s : List Char) : List Char :=
  ((s.dropWhile Char.isWhitespace).reverse.dropWhile Char.isWhitespace).reverse

/-- Python `str.split(sep)` for a one-character separator. -/
def pySplit (sep : Char) : List Char → List (List Char)
  | [] => [[]]
  | c :: rest =>
      let r := pySplit sep rest
      if c = sep then [] :: r
      else
        match r with
        | h :: t => (c :: h) :: t
        | [] => [[c]]

/-- Decimal value of a nonempty all-digit character list, else nothing. -/
def digitsVal (cs : List Char) : Option Nat :=
  if cs = [] then none
  else if cs.all Char.isDigit then
    some (cs.foldl (fun acc c => acc * 10 + (c.toNat - 48)) 0)
  else none

/-- Python `int(s)` on an already-stripped string: optional sign, then
decimal digits; anything else raises `ValueError`, modelled as `none`. -/
def pyInt (s : List Char) : Option Int :=
  match s with
  | '-' :: rest => (digitsVal rest).map (fun n => -(n : Int))
  | '+' :: rest => (digitsVal rest).map (fun n => (n : Int))
  | _ => (digitsVal s).map (fun n => (n : Int))

/-- The scanning part of `_find_rfcomm_channel`: for each stdout line,
strip it; on the first line starting with `"Channel:"`, parse
`int(line.split(":")[1].strip())` — a parse failure (`ValueError`) makes
the whole lookup return nothing (the `except` wraps the loop). -/
def parseChannelLines : List String → Option Int
  | [] => none
  | line :: rest =>
      let l := pyStrip line.data
      if "Channel:".data.isPrefixOf l then
        match (pySplit ':' l).get? 1 with
        | some s => pyInt (pyStrip s)
        | none => none
      else parseChannelLines rest

/-- Channel lookup `_find_rfcomm_channel` from `spp.py`: run `sdptool search`; any tool error
yields no channel, otherwise scan the output lines. -/
def find_rfcomm_channel (o : ToolOutcome) : Option Int :=
  match o with
  | .err => none
  | .out lines => parseChannelLines lines

/-- The `if channel is None: channel = _DEFAULT_RFCOMM_CHANNEL` step that
follows every `_find_rfcomm_channel` call in `spp.py`. -/
def resolveChannel (o : ToolOutcome) : Int :=
  (find_rfcomm_channel o).getD DEFAULT_RFCOMM_CHANNEL

/-- The native `AF_BLUETOOTH` branch of `send_spp_command` (spp.py lines
45-84): resolve the channel (default 5 on lookup failure), connect, send
the packet, sleep 0.3 s, then try a 1 s-timeout `recv(1024)` whose
failure is swallowed; return `True` once the send succeeded, `False` on a
connect or send exception; the socket is closed in `finally`. -/
def send_spp_native (w : SppWorld) (command : List Nat) : Bool × List Ev :=
  let channel := resolveChannel w.sdptool
  if w.connectOk then
    match w.sendOut 0 with
    | .ok =>
        let tr := [Ev.connect channel, Ev.send command, Ev.sleep 300,
                   Ev.settimeout 1, Ev.recv (w.recvOut 0), Ev.close]
        match w.recvOut 0 with
        | .ok _ => (true, tr)
        | .timeout => (true, tr)
    | .err => (false, [Ev.connect channel, Ev.send command, Ev.close])
  else (false, [Ev.connect channel, Ev.close])

/-- Fallback transport `_send_spp_pybluez` (spp.py lines 87-141): if `import bluetooth`
fails, return `False`; if `find_service` yields no match, return `False`
without opening a socket; otherwise connect to the reported port, send,
sleep 0.3 s, try a 1 s-timeout `recv(1024)` whose failure is swallowed,
return `True`; connect/send exceptions give `False`; close in `finally`. -/
def send_spp_pybluez (w : SppWorld) (command : List Nat) : Bool × List Ev :=
  if w.pybluezAvailable then
    match w.findService with
    | some port =>
        if w.connectOk then
          match w.sendOut 0 with
          | .ok =>
              let tr := [Ev.connect port, Ev.send command, Ev.sleep 300,
                         Ev.settimeout 1, Ev.recv (w.recvOut 0), Ev.close]
              match w.recvOut 0 with
              | .ok _ => (true, tr)
              | .timeout => (true, tr)
          | .err => (false, [Ev.connect port, Ev.send command, Ev.close])
        else (false, [Ev.connect port, Ev.close])
    | none => (false, [])
  else (false, [])

/-- Dispatcher `send_spp_command` (spp.py lines 34-84): dispatch on
`hasattr(socket, "AF_BLUETOOTH")` between the native path and the pybluez
fallback. -/
def send_spp_command (w : SppWorld) (command : List Nat) : Bool × List Ev :=
  if w.hasBluetooth then send_spp_native w command
  else send_spp_pybluez w command

/-- The wire form of a query probe, `bytes([0x02, 0x01, command_id])`. -/
def mkQuery (command_id : Nat) : List Nat := [0x02, 0x01, command_id]

/-- Single query `query_spp_value` (spp.py lines 144-178): no native API gives `None`
at once; otherwise resolve channel, connect, sleep 0.3 s, send the probe,
sleep 0.5 s, `recv` with 2 s timeout, scan the response; any exception in
that sequence falls through to `return None`; close in `finally`. -/
def query_spp_value (w : SppWorld) (command_id : Nat) : Option Nat × List Ev :=
  if w.hasBluetooth then
    let channel := resolveChannel w.sdptool
    let query := mkQuery command_id
    if w.connectOk then
      match w.sendOut 0 with
      | .ok =>
          match w.recvOut 0 with
          | .ok data =>
              (extract_value data command_id,
               [Ev.connect channel, Ev.sleep 300, Ev.send query, Ev.sleep 500,
                Ev.settimeout 2, Ev.recv (.ok data), Ev.close])
          | .timeout =>
              (none,
               [Ev.connect channel, Ev.sleep 300, Ev.send query, Ev.sleep 500,
                Ev.settimeout 2, Ev.recv .timeout, Ev.close])
      | .err => (none, [Ev.connect channel, Ev.sleep 300, Ev.send query, Ev.close])
    else (none, [Ev.connect channel, Ev.close])
  else (none, [])

/-- Key list of the Python dict comprehension
`{cid: None for cid in command_ids}`: first-occurrence order, duplicate
keys collapsed. -/
def pyDedup : List Nat → List Nat
  | [] => []
  | c :: rest => c :: (pyDedup rest).filter (fun x => x ≠ c)

/-- Dict update `results[command_id] = value` on the dict modelled as an
association list. -/
def setValue : List (Nat × Option Nat) → Nat → Nat → List (Nat × Option Nat)
  | [], _, _ => []
  | (k, v) :: rest, command_id, val =>
      if k = command_id then (k, some val) :: rest
      else (k, v) :: setValue rest command_id val

/-- The `for command_id in command_ids` loop of `query_spp_values`
(spp.py lines 202-214): send the probe (an `OSError` here escapes to the
outer handler, aborting the loop), sleep 1 s, then a guarded 2 s-timeout
`recv` whose scan records the first matching value; a `TimeoutError` or
`OSError` during the read is swallowed and the loop continues.  `k`
numbers the socket calls across the batch. -/
def query_loop (w : SppWorld) : Nat → List Nat → List (Nat × Option Nat) →
    List (Nat × Option Nat) × List Ev
  | _, [], res => (res, [])
  | k, command_id :: rest, res =>
      let query := mkQuery command_id
      match w.sendOut k with
      | .err => (res, [Ev.send query])
      | .ok =>
          match w.recvOut k with
          | .ok data =>
              let res1 :=
                match extract_value data command_id with
                | some v => setValue res command_id v
                | none => res
              let next := query_loop w (k + 1) rest res1
              (next.1, Ev.send query :: Ev.sleep 1000 :: Ev.settimeout 2 ::
                       Ev.recv (.ok data) :: next.2)
          | .timeout =>
              let next := query_loop w (k + 1) rest res
              (next.1, Ev.send query :: Ev.sleep 1000 :: Ev.settimeout 2 ::
                       Ev.recv .timeout :: next.2)

/-- Batched query `query_spp_values` (spp.py lines 181-220): initialise every requested
id to `None`; return at once when the native API is missing or the list
is empty; otherwise resolve channel, connect (a failure returns the
all-`None` dict), sleep 0.3 s, run the query loop, close in `finally`. -/
def query_spp_values (w : SppWorld) (command_ids : List Nat) :
    List (Nat × Option Nat) × List Ev :=
  let results := (pyDedup command_ids).map (fun c => (c, (none : Option Nat)))
  if w.hasBluetooth && !command_ids.isEmpty then
    let channel := resolveChannel w.sdptool
    if w.connectOk then
      let run := query_loop w 0 command_ids results
      (run.1, Ev.connect channel :: Ev.sleep 300 :: run.2 ++ [Ev.close])
    else (results, [Ev.connect channel, Ev.close])
  else (results, [])

/-- The packet built by `set_speaker_name` (spp.py lines 223-227):
`name.encode("utf-8")[:32]` then `build_spp_command(UECommand.SET_NAME,
*name_bytes)`. -/
def set_speaker_name_packet (name : String) : List Nat :=
  let name_bytes := (name.toUTF8.data.toList.map (fun b => b.toNat)).take 32
  build_spp_command UECommand.SET_NAME name_bytes

/-- Full `set_speaker_name`: build the packet and send it with
`send_spp_command`. -/
def set_speaker_name (w : SppWorld) (name : String) : Bool × List Ev :=
  send_spp_command w (set_speaker_name_packet name)

/-- The query packets transmitted in a trace, in order. -/
def sentPackets (tr : List Ev) : List (List Nat) :=
  tr.filterMap fun e =>
    match e with
    | .send p => some p
    | _ => none

/-- Number of connection attempts in a trace. -/
def connectCount (tr : List Ev) : Nat :=
  (tr.filter fun e =>
    match e with
    | .connect _ => true
    | _ => false).length

/-- Number of socket closes in a trace. -/
def closeCount (tr : List Ev) : Nat :=
  (tr.filter fun e =>
    match e with
    | .close => true
    | _ => false).length

/-- A world where everything succeeds except that `sdptool` lookup and
the pybluez service search both fail, and reads time out. -/
def wDiscoveryFail : SppWorld :=
  { hasBluetooth := true, sdptool := .err, pybluezAvailable := true,
    findService := none, connectOk := true,
    sendOut := fun _ => .ok, recvOut := fun _ => .timeout }

/-- A world where the transport works but every read times out. -/
def wOk : SppWorld :=
  { hasBluetooth := true, sdptool := .err, pybluezAvailable := false,
    findService := none, connectOk := true,
    sendOut := fun _ => .ok, recvOut := fun _ => .timeout }

/-- A world where `sock.connect` raises. -/
def wConnFail : SppWorld :=
  { hasBluetooth := true, sdptool := .err, pybluezAvailable := false,
    findService := none, connectOk := false,
    sendOut := fun _ => .ok, recvOut := fun _ => .timeout }

/-- A world where every `sock.send` raises an `OSError`. -/
def wSendFail : SppWorld :=
  { hasBluetooth := true, sdptool := .err, pybluezAvailable := false,
    findService := none, connectOk := true,
    sendOut := fun _ => .err, recvOut := fun _ => .timeout }

/-- A world where both discovery mechanisms report channel 7 and the
transport works. -/
def wBothFound : SppWorld :=
  { hasBluetooth := true, sdptool := .out ["  Channel: 7"],
    pybluezAvailable := true, findService := some 7, connectOk := true,
    sendOut := fun _ => .ok, recvOut := fun _ => .timeout }

/-- A world on a platform without the native `AF_BLUETOOTH` API. -/
def wNoBT : SppWorld :=
  { hasBluetooth := false, sdptool := .err, pybluezAvailable := false,
    findService := none, connectOk := false,
    sendOut := fun _ => .ok, recvOut := fun _ => .timeout }

/-- Sanity check against spec: `encode(0x64, [0x01]) = [0x03, 0x01, 0x64, 0x01]`. -/
theorem encode_eq_preset_example :
    build_spp_command UECommand.EQ_PRESET [0x01] = [0x03, 0x01, 0x64, 0x01] := by
  decide

/-- Sanity check against spec: `encode(0x6B) = [0x02, 0x01, 0x6B]`. -/
theorem encode_battery_example :
    build_spp_command UECommand.BATTERY_ANNOUNCE [] = [0x02, 0x01, 0x6B] := by
  decide

/-- Sanity check against spec: `encode(0xBB, [0x01, 0x01]) = [0x04, 0x01, 0xBB, 0x01, 0x01]`. -/
theorem encode_volume_example :
    build_spp_command UECommand.VOLUME_ADJUST [0x01, 0x01]
      = [0x04, 0x01, 0xBB, 0x01, 0x01] := by
  decide

/-- C1: for every `command_id` in [0,255] and parameter list of length
n ≤ 253, `build_spp_command` returns a packet of length n+3 whose first
byte is n+2, second byte is 0x01, third byte is `command_id`, and whose
remaining bytes are the parameters in order; the length byte always
equals the packet length minus one. -/
theorem build_spp_command_spec (command_id : Nat) (params : List Nat)
    (_hcid : command_id ≤ 255) (_hlen : params.length ≤ 253) :
    (build_spp_command command_id params).length = params.length + 3 ∧
    (build_spp_command command_id params).get? 0 = some (params.length + 2) ∧
    (build_spp_command command_id params).get? 1 = some 0x01 ∧
    (build_spp_command command_id params).get? 2 = some command_id ∧
    (build_spp_command command_id params).drop 3 = params ∧
    (build_spp_command command_id params).get? 0 =
      some ((build_spp_command command_id params).length - 1) := by
  refine ⟨?_, ?_, ?_, ?_, ?_, ?_⟩ <;> simp [build_spp_command]

/-- Witness for C1 at `command_id = 0x64`, `params = [0x01]`. -/
theorem build_spp_command_spec_witness :
    (build_spp_command 0x64 [0x01]).length = [0x01].length + 3 ∧
    (build_spp_command 0x64 [0x01]).get? 0 = some ([0x01].length + 2) ∧
    (build_spp_command 0x64 [0x01]).get? 1 = some 0x01 ∧
    (build_spp_command 0x64 [0x01]).get? 2 = some 0x64 ∧
    (build_spp_command 0x64 [0x01]).drop 3 = [0x01] ∧
    (build_spp_command 0x64 [0x01]).get? 0 =
      some ((build_spp_command 0x64 [0x01]).length - 1) :=
  build_spp_command_spec 0x64 [0x01] (by decide) (by decide)

/-- C2: extracting a query value scans the response left to right and
returns the byte immediately following the first occurrence of
`command_id`; it is `none` when `command_id` does not occur, or occurs
only as the final byte (no following byte), including on the empty
response. -/
theorem extract_value_spec (resp : List Nat) (command_id : Nat) :
    extract_value resp command_id =
      if resp.indexOf command_id + 1 < resp.length
      then resp.get? (resp.indexOf command_id + 1)
      else none := by
  induction resp with
  | nil => simp [extract_value]
  | cons a rest ih =>
    match rest with
    | [] =>
      by_cases h : a = command_id
      · subst h
        simp [extract_value, List.indexOf_cons_self]
      · rw [show extract_value [a] command_id = none from rfl,
            List.indexOf_cons_ne _ h]
        simp
    | b :: t =>
      by_cases h : a = command_id
      · subst h
        simp [extract_value, List.indexOf_cons_self]
      · have hstep : extract_value (a :: b :: t) command_id
            = extract_value (b :: t) command_id := by
          simp [extract_value, h]
        rw [hstep, ih, List.indexOf_cons_ne _ h]
        by_cases hlt : (b :: t).indexOf command_id + 1 < (b :: t).length
        · rw [if_pos hlt, if_pos (by rw [List.length_cons]; omega)]
          simp [Nat.succ_eq_add_one]
        · rw [if_neg hlt, if_neg (by rw [List.length_cons]; omega)]

/-- C4: `send_spp_command` returns `true` whenever the transmit write
succeeds (the write was issued and did not raise), regardless of the
outcome of the subsequent read — a read timeout or read error never flips
the result to `false`.  Holds on both transport paths. -/
theorem send_spp_command_write_success (w : SppWorld) (command : List Nat)
    (hw : Ev.send command ∈ (send_spp_command w command).2)
    (hok : w.sendOut 0 = .ok) :
    (send_spp_command w command).1 = true := by
  cases hb : w.hasBluetooth <;> cases hc : w.connectOk <;>
  cases hr : w.recvOut 0 <;> cases hf : w.findService <;>
  cases hp : w.pybluezAvailable <;>
    simp_all [send_spp_command, send_spp_native, send_spp_pybluez]

/-- Witness for C4: in `wOk` (write succeeds, read times out) the send
reports success. -/
theorem send_spp_command_write_success_witness :
    (send_spp_command wOk [0x02, 0x01, 0x6B]).1 = true :=
  send_spp_command_write_success wOk [0x02, 0x01, 0x6B] (by decide) rfl

/-- C5: when `connect` raises, `send_spp_command` returns `false` with no
retry (at most one connection attempt ever), and the socket opened by
send is closed on every exit path: each trace closes exactly as many
sockets as it opens. -/
theorem send_spp_command_cleanup (w : SppWorld) (command : List Nat) :
    (w.connectOk = false → (send_spp_command w command).1 = false) ∧
    connectCount (send_spp_command w command).2 ≤ 1 ∧
    closeCount (send_spp_command w command).2 =
      connectCount (send_spp_command w command).2 := by
  cases hb : w.hasBluetooth <;> cases hc : w.connectOk <;>
  cases hs : w.sendOut 0 <;> cases hr : w.recvOut 0 <;>
  cases hf : w.findService <;> cases hp : w.pybluezAvailable <;>
    simp_all [send_spp_command, send_spp_native, send_spp_pybluez,
      connectCount, closeCount]

/-- Witness for C5 in `wConnFail`: result is `false`, one connect
attempt, socket closed. -/
theorem send_spp_command_cleanup_witness :
    (send_spp_command wConnFail [0x02, 0x01, 0x6B]).1 = false ∧
    connectCount (send_spp_command wConnFail [0x02, 0x01, 0x6B]).2 ≤ 1 ∧
    closeCount (send_spp_command wConnFail [0x02, 0x01, 0x6B]).2 =
      connectCount (send_spp_command wConnFail [0x02, 0x01, 0x6B]).2 :=
  ⟨(send_spp_command_cleanup wConnFail [0x02, 0x01, 0x6B]).1 rfl,
   (send_spp_command_cleanup wConnFail [0x02, 0x01, 0x6B]).2.1,
   (send_spp_command_cleanup wConnFail [0x02, 0x01, 0x6B]).2.2⟩

/-- C7: any transport failure anywhere in the connect / delay / send /
delay / read sequence of `query_spp_value` collapses the result to
`none`; no partial value is returned (and the model is a total function,
so no exception escapes). -/
theorem query_spp_value_error_absent (w : SppWorld) (command_id : Nat)
    (herr : w.connectOk = false ∨ w.sendOut 0 = .err ∨ w.recvOut 0 = .timeout) :
    (query_spp_value w command_id).1 = none := by
  cases hb : w.hasBluetooth <;> cases hc : w.connectOk <;>
  cases hs : w.sendOut 0 <;> cases hr : w.recvOut 0 <;>
    simp_all [query_spp_value]

/-- Witness for C7: a failed connect yields `none`. -/
theorem query_spp_value_error_absent_witness :
    (query_spp_value wConnFail 0x64).1 = none :=
  query_spp_value_error_absent wConnFail 0x64 (Or.inl rfl)

/-- C10: when the native `AF_BLUETOOTH` API is unavailable,
`query_spp_value` returns `none` and `query_spp_values` returns the
all-`none` mapping, both with an empty I/O trace (no transport attempted,
in particular no pybluez fallback); only `send_spp_command` has a second
transport strategy, to which it delegates in that case. -/
theorem query_no_native_no_fallback (w : SppWorld) (command_id : Nat)
    (command_ids : List Nat) (command : List Nat)
    (hb : w.hasBluetooth = false) :
    query_spp_value w command_id = (none, []) ∧
    query_spp_values w command_ids
      = ((pyDedup command_ids).map (fun c => (c, none)), []) ∧
    send_spp_command w command = send_spp_pybluez w command := by
  refine ⟨?_, ?_, ?_⟩ <;>
    simp [query_spp_value, query_spp_values, send_spp_command, hb]

/-- Witness for C10 in `wNoBT`. -/
theorem query_no_native_no_fallback_witness :
    query_spp_value wNoBT 0x64 = (none, []) ∧
    query_spp_values wNoBT [0x64, 0x6B] = ([(0x64, none), (0x6B, none)], []) ∧
    send_spp_command wNoBT [0x02, 0x01, 0x6B]
      = send_spp_pybluez wNoBT [0x02, 0x01, 0x6B] := by
  have h := query_no_native_no_fallback wNoBT 0x64 [0x64, 0x6B]
    [0x02, 0x01, 0x6B] rfl
  refine ⟨h.1, ?_, h.2.2⟩
  rw [h.2.1]
  decide

/-- C8: channel resolution uses the channel reported by the discovery
tool verbatim whenever the lookup succeeds; on any lookup failure (tool
missing or timed out, unparsable output, or no reported channel) the
resolved channel is the fixed default 5, and the failure is never fatal:
the native send still proceeds to a connection attempt on the resolved
channel. -/
theorem resolve_channel_spec (o : ToolOutcome) :
    (∀ n, find_rfcomm_channel o = some n → resolveChannel o = n) ∧
    (find_rfcomm_channel o = none → resolveChannel o = 5) ∧
    find_rfcomm_channel ToolOutcome.err = none ∧
    (∀ (w : SppWorld) (command : List Nat), w.sdptool = o →
      Ev.connect (resolveChannel o) ∈ (send_spp_native w command).2) := by
  refine ⟨?_, ?_, rfl, ?_⟩
  · intro n h
    simp [resolveChannel, h]
  · intro h
    simp [resolveChannel, h, DEFAULT_RFCOMM_CHANNEL]
  · intro w command hsdp
    subst hsdp
    cases hc : w.connectOk <;> cases hs : w.sendOut 0 <;>
    cases hr : w.recvOut 0 <;>
      simp_all [send_spp_native]

/-- Witness for C8: output reporting channel 7 resolves to 7 verbatim; a
tool error resolves to the default 5; in `wOk` (whose lookup fails) the
native send still attempts a connection on channel 5. -/
theorem resolve_channel_spec_witness :
    resolveChannel (ToolOutcome.out ["  Channel: 7"]) = 7 ∧
    resolveChannel ToolOutcome.err = 5 ∧
    Ev.connect (resolveChannel ToolOutcome.err)
      ∈ (send_spp_native wOk [0x02, 0x01, 0x6B]).2 :=
  ⟨(resolve_channel_spec (ToolOutcome.out ["  Channel: 7"])).1 7 (by decide),
   (resolve_channel_spec ToolOutcome.err).2.1 (by decide),
   (resolve_channel_spec ToolOutcome.err).2.2.2 wOk [0x02, 0x01, 0x6B] rfl⟩

/-- C9: `set_speaker_name` builds `encode(0x72, name_bytes)` where
`name_bytes` is the UTF-8 encoding of the name truncated to its first 32
bytes; a name of at most 32 UTF-8 bytes is encoded unmodified. -/
theorem set_speaker_name_spec (name : String) :
    ((name.toUTF8.data.toList.map (fun b => b.toNat)).length ≤ 32 →
      set_speaker_name_packet name
        = build_spp_command 0x72 (name.toUTF8.data.toList.map (fun b => b.toNat))) ∧
    set_speaker_name_packet name
      = build_spp_command 0x72
          ((name.toUTF8.data.toList.map (fun b => b.toNat)).take 32) := by
  constructor
  · intro h
    simp [set_speaker_name_packet, UECommand.SET_NAME, List.take_of_length_le h]
  · rfl

/-- Witness for C9: the 6-character name "Stereo" is encoded unmodified;
a 50-character one-byte-per-character name is encoded from its first 32
bytes only. -/
theorem set_speaker_name_spec_witness :
    ("Stereo".toUTF8.data.toList.map (fun b => b.toNat)).length ≤ 32 ∧
    set_speaker_name_packet "Stereo"
      = build_spp_command 0x72 ("Stereo".toUTF8.data.toList.map (fun b => b.toNat)) ∧
    set_speaker_name_packet "aaaaaaaaaaaaaaaaaaaaaaaaaaaaaaaaaaaaaaaaaaaaaaaaaa"
      = build_spp_command 0x72
          (("aaaaaaaaaaaaaaaaaaaaaaaaaaaaaaaaaaaaaaaaaaaaaaaaaa".toUTF8.data.toList.map
            (fun b => b.toNat)).take 32) :=
  ⟨by decide,
   (set_speaker_name_spec "Stereo").1 (by decide),
   (set_speaker_name_spec "aaaaaaaaaaaaaaaaaaaaaaaaaaaaaaaaaaaaaaaaaaaaaaaaaa").2⟩

/-- C6 counterexample: the two send transports do not implement the same
step sequence nor the same boolean contract.  When service discovery
fails but the device accepts connections, the native path falls back to
default channel 5 and reports `true`, while the pybluez path reports
`false` without even attempting a connection. -/
theorem send_transports_differ :
    (send_spp_native wDiscoveryFail [0x02, 0x01, 0x6B]).1 = true ∧
    (send_spp_pybluez wDiscoveryFail [0x02, 0x01, 0x6B]).1 = false ∧
    connectCount (send_spp_pybluez wDiscoveryFail [0x02, 0x01, 0x6B]).2 = 0 := by
  decide

/-- C6 (amended): whenever pybluez is importable and service discovery
succeeds consistently on both paths (the pybluez service search reports
the same channel that the sdptool lookup resolves to), the native and
pybluez paths produce identical results and identical I/O traces
(connect, single write, 300 ms settle delay, bounded read with 1 s
timeout tolerated on failure, unconditional close). -/
theorem send_transports_agree (w : SppWorld) (command : List Nat) (ch : Int)
    (hpb : w.pybluezAvailable = true) (hfs : w.findService = some ch)
    (hsdp : find_rfcomm_channel w.sdptool = some ch) :
    send_spp_native w command = send_spp_pybluez w command := by
  have hres : resolveChannel w.sdptool = ch := by simp [resolveChannel, hsdp]
  cases hc : w.connectOk <;> cases hs : w.sendOut 0 <;>
  cases hr : w.recvOut 0 <;>
    simp_all [send_spp_native, send_spp_pybluez]

/-- Witness for C6 (amended) in `wBothFound` (both discoveries report
channel 7). -/
theorem send_transports_agree_witness :
    send_spp_native wBothFound [0x02, 0x01, 0x6B]
      = send_spp_pybluez wBothFound [0x02, 0x01, 0x6B] :=
  send_transports_agree wBothFound [0x02, 0x01, 0x6B] 7 rfl rfl (by decide)

/-- Transmitted packets: empty trace. -/
@[simp] theorem sentPackets_nil : sentPackets [] = [] := rfl

/-- Transmitted packets: a send event contributes its packet. -/
@[simp] theorem sentPackets_send (p : List Nat) (tr : List Ev) :
    sentPackets (Ev.send p :: tr) = p :: sentPackets tr := rfl

/-- Transmitted packets ignore connect events. -/
@[simp] theorem sentPackets_connect (ch : Int) (tr : List Ev) :
    sentPackets (Ev.connect ch :: tr) = sentPackets tr := rfl

/-- Transmitted packets ignore sleep events. -/
@[simp] theorem sentPackets_sleep (ms : Nat) (tr : List Ev) :
    sentPackets (Ev.sleep ms :: tr) = sentPackets tr := rfl

/-- Transmitted packets ignore settimeout events. -/
@[simp] theorem sentPackets_settimeout (sec : Nat) (tr : List Ev) :
    sentPackets (Ev.settimeout sec :: tr) = sentPackets tr := rfl

/-- Transmitted packets ignore recv events. -/
@[simp] theorem sentPackets_recv (r : RecvOutcome) (tr : List Ev) :
    sentPackets (Ev.recv r :: tr) = sentPackets tr := rfl

/-- Transmitted packets ignore close events. -/
@[simp] theorem sentPackets_close (tr : List Ev) :
    sentPackets (Ev.close :: tr) = sentPackets tr := rfl

/-- Transmitted packets distribute over trace concatenation. -/
@[simp] theorem sentPackets_append (tr tr' : List Ev) :
    sentPackets (tr ++ tr') = sentPackets tr ++ sentPackets tr' := by
  simp [sentPackets]

/-- Connection attempts: empty trace. -/
@[simp] theorem connectCount_nil : connectCount [] = 0 := rfl

/-- Connection attempts: a connect event counts. -/
@[simp] theorem connectCount_connect (ch : Int) (tr : List Ev) :
    connectCount (Ev.connect ch :: tr) = connectCount tr + 1 := rfl

/-- Connection attempts ignore send events. -/
@[simp] theorem connectCount_send (p : List Nat) (tr : List Ev) :
    connectCount (Ev.send p :: tr) = connectCount tr := rfl

/-- Connection attempts ignore sleep events. -/
@[simp] theorem connectCount_sleep (ms : Nat) (tr : List Ev) :
    connectCount (Ev.sleep ms :: tr) = connectCount tr := rfl

/-- Connection attempts ignore settimeout events. -/
@[simp] theorem connectCount_settimeout (sec : Nat) (tr : List Ev) :
    connectCount (Ev.settimeout sec :: tr) = connectCount tr := rfl

/-- Connection attempts ignore recv events. -/
@[simp] theorem connectCount_recv (r : RecvOutcome) (tr : List Ev) :
    connectCount (Ev.recv r :: tr) = connectCount tr := rfl

/-- Connection attempts ignore close events. -/
@[simp] theorem connectCount_close (tr : List Ev) :
    connectCount (Ev.close :: tr) = connectCount tr := rfl

/-- Connection attempts add over trace concatenation. -/
@[simp] theorem connectCount_append (tr tr' : List Ev) :
    connectCount (tr ++ tr') = connectCount tr + connectCount tr' := by
  simp [connectCount, List.filter_append]

/-- Socket closes: empty trace. -/
@[simp] theorem closeCount_nil : closeCount [] = 0 := rfl

/-- Socket closes: a close event counts. -/
@[simp] theorem closeCount_close (tr : List Ev) :
    closeCount (Ev.close :: tr) = closeCount tr + 1 := rfl

/-- Socket closes ignore connect events. -/
@[simp] theorem closeCount_connect (ch : Int) (tr : List Ev) :
    closeCount (Ev.connect ch :: tr) = closeCount tr := rfl

/-- Socket closes ignore send events. -/
@[simp] theorem closeCount_send (p : List Nat) (tr : List Ev) :
    closeCount (Ev.send p :: tr) = closeCount tr := rfl

/-- Socket closes ignore sleep events. -/
@[simp] theorem closeCount_sleep (ms : Nat) (tr : List Ev) :
    closeCount (Ev.sleep ms :: tr) = closeCount tr := rfl

/-- Socket closes ignore settimeout events. -/
@[simp] theorem closeCount_settimeout (sec : Nat) (tr : List Ev) :
    closeCount (Ev.settimeout sec :: tr) = closeCount tr := rfl

/-- Socket closes ignore recv events. -/
@[simp] theorem closeCount_recv (r : RecvOutcome) (tr : List Ev) :
    closeCount (Ev.recv r :: tr) = closeCount tr := rfl

/-- Socket closes add over trace concatenation. -/
@[simp] theorem closeCount_append (tr tr' : List Ev) :
    closeCount (tr ++ tr') = closeCount tr + closeCount tr' := by
  simp [closeCount, List.filter_append]

/-- Updating one value in the results dict does not change its key list. -/
theorem setValue_keys (res : List (Nat × Option Nat)) (command_id v : Nat) :
    (setValue res command_id v).map Prod.fst = res.map Prod.fst := by
  induction res with
  | nil => rfl
  | cons p rest ih =>
    cases p with
    | mk k val => by_cases h : k = command_id <;> simp [setValue, h, ih]

/-- The query loop never changes the key list of the results dict. -/
theorem query_loop_keys (w : SppWorld) (cids : List Nat) :
    ∀ (k : Nat) (res : List (Nat × Option Nat)),
      (query_loop w k cids res).1.map Prod.fst = res.map Prod.fst := by
  induction cids with
  | nil => intro k res; rfl
  | cons c rest ih =>
    intro k res
    cases hs : w.sendOut k with
    | err => simp [query_loop, hs]
    | ok =>
      cases hr : w.recvOut k with
      | timeout => simp [query_loop, hs, hr, ih]
      | ok data =>
        cases he : extract_value data c with
        | none => simp [query_loop, hs, hr, he, ih]
        | some v => simp [query_loop, hs, hr, he, ih, setValue_keys]

/-- The query loop opens no connection and closes no socket. -/
theorem query_loop_no_connect (w : SppWorld) (cids : List Nat) :
    ∀ (k : Nat) (res : List (Nat × Option Nat)),
      connectCount (query_loop w k cids res).2 = 0 ∧
      closeCount (query_loop w k cids res).2 = 0 := by
  induction cids with
  | nil => intro k res; exact ⟨rfl, rfl⟩
  | cons c rest ih =>
    intro k res
    cases hs : w.sendOut k with
    | err => simp [query_loop, hs]
    | ok =>
      cases hr : w.recvOut k with
      | timeout =>
        have hrec := ih (k + 1) res
        simp [query_loop, hs, hr, hrec.1, hrec.2]
      | ok data =>
        cases he : extract_value data c with
        | none =>
          have hrec := ih (k + 1) res
          simp [query_loop, hs, hr, he, hrec.1, hrec.2]
        | some v =>
          have hrec := ih (k + 1) (setValue res c v)
          simp [query_loop, hs, hr, he, hrec.1, hrec.2]

/-- When no send raises, the query loop transmits one probe per
command id, in the given order, regardless of read outcomes. -/
theorem query_loop_sent_all (w : SppWorld) (hok : ∀ k, w.sendOut k = .ok)
    (cids : List Nat) :
    ∀ (k : Nat) (res : List (Nat × Option Nat)),
      sentPackets (query_loop w k cids res).2 = cids.map mkQuery := by
  induction cids with
  | nil => intro k res; rfl
  | cons c rest ih =>
    intro k res
    cases hr : w.recvOut k with
    | timeout => simp [query_loop, hok k, hr, ih (k + 1) res]
    | ok data =>
      cases he : extract_value data c with
      | none => simp [query_loop, hok k, hr, he, ih (k + 1) res]
      | some v => simp [query_loop, hok k, hr, he, ih (k + 1) (setValue res c v)]

/-- When the first failing send is the n-th, the query loop transmits
exactly the probes for the first n+1 command ids and stops. -/
theorem query_loop_sent_abort (w : SppWorld) (cids : List Nat) :
    ∀ (k n : Nat) (res : List (Nat × Option Nat)),
      (∀ j, j < n → w.sendOut (k + j) = .ok) → w.sendOut (k + n) = .err →
      sentPackets (query_loop w k cids res).2
        = (cids.take (n + 1)).map mkQuery := by
  induction cids with
  | nil => intro k n res _ _; simp [query_loop]
  | cons c rest ih =>
    intro k n res hok herr
    cases n with
    | zero =>
      have hs : w.sendOut k = .err := by simpa using herr
      simp [query_loop, hs]
    | succ m =>
      have hs : w.sendOut k = .ok := by
        have := hok 0 (Nat.succ_pos m)
        simpa using this
      have hok1 : ∀ j, j < m → w.sendOut (k + 1 + j) = .ok := by
        intro j hj
        have := hok (j + 1) (Nat.succ_lt_succ hj)
        have harith : k + (j + 1) = k + 1 + j := by omega
        rwa [harith] at this
      have herr1 : w.sendOut (k + 1 + m) = .err := by
        have harith : k + (m + 1) = k + 1 + m := by omega
        rwa [harith] at herr
      cases hr : w.recvOut k with
      | timeout =>
        have hrec := ih (k + 1) m res hok1 herr1
        simp [query_loop, hs, hr, hrec]
      | ok data =>
        cases he : extract_value data c with
        | none =>
          have hrec := ih (k + 1) m res hok1 herr1
          simp [query_loop, hs, hr, he, hrec]
        | some v =>
          have hrec := ih (k + 1) m (setValue res c v) hok1 herr1
          simp [query_loop, hs, hr, he, hrec]

/-- Deduplication is the identity on duplicate-free lists. -/
theorem pyDedup_eq_self (cids : List Nat) (h : cids.Nodup) :
    pyDedup cids = cids := by
  induction cids with
  | nil => rfl
  | cons c rest ih =>
    rw [List.nodup_cons] at h
    rw [pyDedup, ih h.2, List.filter_eq_self.mpr]
    intro a ha
    simp only [ne_eq, decide_eq_true_eq]
    intro hac
    exact h.1 (hac ▸ ha)

/-- Looking up a key different from the updated one is unchanged. -/
theorem setValue_lookup_ne (res : List (Nat × Option Nat)) (c c' v : Nat)
    (h : c ≠ c') : (setValue res c' v).lookup c = res.lookup c := by
  induction res with
  | nil => rfl
  | cons p rest ih =>
    cases p with
    | mk k val =>
      by_cases hk : k = c'
      · subst hk
        have hck : (c == k) = false := by simp [h]
        simp [setValue, List.lookup, hck]
      · by_cases hck : c = k
        · subst hck
          simp [setValue, hk, List.lookup]
        · have hck' : (c == k) = false := by simp [hck]
          simp [setValue, hk, List.lookup, hck', ih]

/-- Updating a present key makes its lookup the new value. -/
theorem setValue_lookup_self (res : List (Nat × Option Nat)) (c v : Nat)
    (h : c ∈ res.map Prod.fst) : (setValue res c v).lookup c = some (some v) := by
  induction res with
  | nil => simp at h
  | cons p rest ih =>
    cases p with
    | mk k val =>
      by_cases hk : k = c
      · subst hk
        simp [setValue, List.lookup]
      · have hck0 : ¬ c = k := fun e => hk e.symm
        have hck : (c == k) = false := by simp [hck0]
        have hmem : c ∈ rest.map Prod.fst := by
          simp at h
          rcases h with h | h
          · exact absurd h.symm hk
          · simpa using h
        simp [setValue, hk, List.lookup, hck, ih hmem]

/-- The query loop leaves the entry of any id outside the batch alone. -/
theorem query_loop_lookup_not_mem (w : SppWorld) (cids : List Nat) :
    ∀ (k : Nat) (res : List (Nat × Option Nat)) (c : Nat), c ∉ cids →
      (query_loop w k cids res).1.lookup c = res.lookup c := by
  induction cids with
  | nil => intro k res c _; rfl
  | cons c' rest ih =>
    intro k res c hc
    have hne : c ≠ c' := fun h => hc (h ▸ List.mem_cons_self c' rest)
    have hrest : c ∉ rest := fun h => hc (List.mem_cons_of_mem c' h)
    cases hs : w.sendOut k with
    | err => simp [query_loop, hs]
    | ok =>
      cases hr : w.recvOut k with
      | timeout => simp [query_loop, hs, hr, ih (k + 1) res c hrest]
      | ok data =>
        cases he : extract_value data c' with
        | none => simp [query_loop, hs, hr, he, ih (k + 1) res c hrest]
        | some v =>
          simp [query_loop, hs, hr, he,
            ih (k + 1) (setValue res c' v) c hrest,
            setValue_lookup_ne res c c' v hne]

/-- In the all-`none` initial dict every listed id maps to `none`. -/
theorem lookup_init_none (cids : List Nat) (c : Nat) (h : c ∈ cids) :
    (cids.map (fun x => (x, (none : Option Nat)))).lookup c = some none := by
  induction cids with
  | nil => simp at h
  | cons a rest ih =>
    by_cases hca : c = a
    · subst hca
      simp [List.lookup]
    · have hmem : c ∈ rest := by
        rcases List.mem_cons.mp h with h' | h'
        · exact absurd h' hca
        · exact h'
      have hck : (c == a) = false := by simp [hca]
      simp [List.lookup, hck, ih hmem]

/-- Value characterization of the query loop on a duplicate-free batch
whose ids are all keys of the results dict, when no send raises: the
final entry of the i-th id is determined by the i-th read — unchanged on
a read timeout or when the scan finds nothing, the scanned value
otherwise. -/
theorem query_loop_lookup (w : SppWorld) (hok : ∀ j, w.sendOut j = .ok)
    (cids : List Nat) :
    ∀ (k : Nat) (res : List (Nat × Option Nat)), cids.Nodup →
      (∀ x ∈ cids, x ∈ res.map Prod.fst) →
      ∀ (i : Nat) (hi : i < cids.length),
        (query_loop w k cids res).1.lookup cids[i]
          = match w.recvOut (k + i) with
            | .timeout => res.lookup cids[i]
            | .ok data =>
                match extract_value data cids[i] with
                | some v => some (some v)
                | none => res.lookup cids[i] := by
  induction cids with
  | nil => intro k res _ _ i hi; simp at hi
  | cons c rest ih =>
    intro k res hnd hmem i hi
    have hcmem : c ∈ res.map Prod.fst := hmem c (List.mem_cons_self c rest)
    rw [List.nodup_cons] at hnd
    cases i with
    | zero =>
      simp only [List.getElem_cons_zero, Nat.add_zero]
      cases hr : w.recvOut k with
      | timeout =>
        simp only [query_loop, hok k, hr]
        rw [query_loop_lookup_not_mem w rest (k + 1) res c hnd.1]
      | ok data =>
        cases he : extract_value data c with
        | none =>
          simp only [query_loop, hok k, hr, he]
          rw [query_loop_lookup_not_mem w rest (k + 1) res c hnd.1]
        | some v =>
          simp only [query_loop, hok k, hr, he]
          rw [query_loop_lookup_not_mem w rest (k + 1) (setValue res c v) c hnd.1,
              setValue_lookup_self res c v hcmem]
    | succ j =>
      simp only [List.getElem_cons_succ]
      have hj : j < rest.length := by simpa using hi
      have hrestmem : ∀ x ∈ rest, x ∈ res.map Prod.fst :=
        fun x hx => hmem x (List.mem_cons_of_mem c hx)
      have hne : rest[j] ≠ c :=
        fun h => hnd.1 (h ▸ List.getElem_mem hj)
      have harith : k + 1 + j = k + (j + 1) := by omega
      cases hr : w.recvOut k with
      | timeout =>
        simp only [query_loop, hok k, hr]
        rw [ih (k + 1) res hnd.2 hrestmem j hj, harith]
      | ok data =>
        cases he : extract_value data c with
        | none =>
          simp only [query_loop, hok k, hr, he]
          rw [ih (k + 1) res hnd.2 hrestmem j hj, harith]
        | some v =>
          simp only [query_loop, hok k, hr, he]
          have hmem1 : ∀ x ∈ rest, x ∈ (setValue res c v).map Prod.fst := by
            intro x hx
            rw [setValue_keys]
            exact hrestmem x hx
          rw [ih (k + 1) (setValue res c v) hnd.2 hmem1 j hj, harith]
          simp only [setValue_lookup_ne res (rest[j]) c v hne]

/-- C3 counterexample: an `OSError` raised by `sock.send` on the first
query escapes the per-read handler and aborts the whole batch — with a
transmit failure on query 1 of `[0x64, 0x6B]`, the probe for `0x6B` is
never transmitted, although the returned mapping still has both entries
(`none`). -/
theorem query_spp_values_abort_counterexample :
    wSendFail.sendOut 0 = .err ∧
    Ev.send (mkQuery 0x64) ∈ (query_spp_values wSendFail [0x64, 0x6B]).2 ∧
    Ev.send (mkQuery 0x6B) ∉ (query_spp_values wSendFail [0x64, 0x6B]).2 ∧
    (query_spp_values wSendFail [0x64, 0x6B]).1
      = [(0x64, none), (0x6B, none)] := by
  decide

/-- C3 (amended): for a nonempty batch on a platform with the native
API, when `connect` succeeds `query_spp_values` opens exactly one
connection and closes it once; the returned mapping has one entry per
distinct command id (so exactly N entries when the N ids are distinct),
each a byte value or `none`; when no transmit raises it sends one paced
probe per command id in the given order — a read timeout or read error
on the k-th query leaves that entry `none` and does not prevent queries
k+1..N, while a successful read records exactly the scanned value — but
a transmit error on the k-th query aborts the batch after the k-th
probe, leaving the remaining probes untransmitted. -/
theorem query_spp_values_spec (w : SppWorld) (command_ids : List Nat)
    (hb : w.hasBluetooth = true) (hne : command_ids ≠ [])
    (hc : w.connectOk = true) :
    connectCount (query_spp_values w command_ids).2 = 1 ∧
    closeCount (query_spp_values w command_ids).2 = 1 ∧
    (query_spp_values w command_ids).1.map Prod.fst = pyDedup command_ids ∧
    (command_ids.Nodup →
      (query_spp_values w command_ids).1.length = command_ids.length) ∧
    ((∀ k, w.sendOut k = .ok) →
      sentPackets (query_spp_values w command_ids).2
        = command_ids.map mkQuery) ∧
    (∀ n, (∀ j, j < n → w.sendOut j = .ok) → w.sendOut n = .err →
      sentPackets (query_spp_values w command_ids).2
        = (command_ids.take (n + 1)).map mkQuery) ∧
    (command_ids.Nodup → (∀ j, w.sendOut j = .ok) →
      ∀ (k : Nat) (hk : k < command_ids.length),
        (w.recvOut k = .timeout →
          (query_spp_values w command_ids).1.lookup command_ids[k]
            = some none) ∧
        (∀ data, w.recvOut k = .ok data →
          (query_spp_values w command_ids).1.lookup command_ids[k]
            = some (extract_value data command_ids[k]))) := by
  have hcond : (w.hasBluetooth && !command_ids.isEmpty) = true := by
    simp [hb, hne]
  have hrun : query_spp_values w command_ids
      = ((query_loop w 0 command_ids
            ((pyDedup command_ids).map (fun c => (c, none)))).1,
         Ev.connect (resolveChannel w.sdptool) :: Ev.sleep 300 ::
           (query_loop w 0 command_ids
             ((pyDedup command_ids).map (fun c => (c, none)))).2 ++ [Ev.close]) := by
    simp [query_spp_values, hcond, hc]
  rw [hrun]
  have hnoc := query_loop_no_connect w command_ids 0
    ((pyDedup command_ids).map (fun c => (c, none)))
  refine ⟨?_, ?_, ?_, ?_, ?_, ?_, ?_⟩
  · simp [hnoc.1]
  · simp [hnoc.2]
  · rw [query_loop_keys]
    simp [Function.comp_def]
  · intro hnd
    have hkeys := query_loop_keys w command_ids 0
      ((pyDedup command_ids).map (fun c => (c, none)))
    have hlen : (query_loop w 0 command_ids
        ((pyDedup command_ids).map (fun c => (c, none)))).1.length
        = (pyDedup command_ids).length := by
      have := congrArg List.length hkeys
      simpa using this
    rw [hlen, pyDedup_eq_self command_ids hnd]
  · intro hok
    simp [query_loop_sent_all w hok command_ids 0]
  · intro n hok herr
    have hga : ∀ j, j < n → w.sendOut (0 + j) = .ok := by
      intro j hj
      simpa using hok j hj
    have hge : w.sendOut (0 + n) = .err := by simpa using herr
    simp [query_loop_sent_abort w command_ids 0 n _ hga hge]
  · intro hnd hok k hk
    have hmem0 : ∀ x ∈ command_ids,
        x ∈ ((pyDedup command_ids).map
          (fun c => (c, (none : Option Nat)))).map Prod.fst := by
      intro x hx
      rw [List.map_map]
      simp only [Function.comp_def]
      rw [show (fun c => ((c, (none : Option Nat))).fst) = fun c : Nat => c
          from rfl]
      rw [List.map_id', pyDedup_eq_self command_ids hnd]
      exact hx
    have hmain := query_loop_lookup w hok command_ids 0
      ((pyDedup command_ids).map (fun c => (c, none))) hnd hmem0 k hk
    rw [Nat.zero_add] at hmain
    have hinit : ((pyDedup command_ids).map
        (fun c => (c, (none : Option Nat)))).lookup command_ids[k]
        = some none := by
      apply lookup_init_none
      rw [pyDedup_eq_self command_ids hnd]
      exact List.getElem_mem hk
    constructor
    · intro hto
      rw [hmain, hto, hinit]
    · intro data hdata
      rw [hmain, hdata]
      cases he : extract_value data command_ids[k] with
      | none => simp [he, hinit]
      | some v => simp [he]

/-- Witness for C3 (amended) in `wOk` on the batch `[0x64, 0x6B]`. -/
theorem query_spp_values_spec_witness :
    connectCount (query_spp_values wOk [0x64, 0x6B]).2 = 1 ∧
    closeCount (query_spp_values wOk [0x64, 0x6B]).2 = 1 ∧
    (query_spp_values wOk [0x64, 0x6B]).1.map Prod.fst = pyDedup [0x64, 0x6B] ∧
    (([0x64, 0x6B] : List Nat).Nodup →
      (query_spp_values wOk [0x64, 0x6B]).1.length = ([0x64, 0x6B] : List Nat).length) ∧
    ((∀ k, wOk.sendOut k = .ok) →
      sentPackets (query_spp_values wOk [0x64, 0x6B]).2
        = ([0x64, 0x6B] : List Nat).map mkQuery) ∧
    (∀ n, (∀ j, j < n → wOk.sendOut j = .ok) → wOk.sendOut n = .err →
      sentPackets (query_spp_values wOk [0x64, 0x6B]).2
        = (([0x64, 0x6B] : List Nat).take (n + 1)).map mkQuery) ∧
    (([0x64, 0x6B] : List Nat).Nodup → (∀ j, wOk.sendOut j = .ok) →
      ∀ (k : Nat) (hk : k < ([0x64, 0x6B] : List Nat).length),
        (wOk.recvOut k = .timeout →
          (query_spp_values wOk [0x64, 0x6B]).1.lookup
            (([0x64, 0x6B] : List Nat)[k]) = some none) ∧
        (∀ data, wOk.recvOut k = .ok data →
          (query_spp_values wOk [0x64, 0x6B]).1.lookup
            (([0x64, 0x6B] : List Nat)[k])
            = some (extract_value data (([0x64, 0x6B] : List Nat)[k])))) :=
  query_spp_values_spec wOk [0x64, 0x6B] rfl (by decide) rfl

end UEMiniBoom
